import Mathlib

/-!
Shallow embedding of the med-analyzer frontend (React/TypeScript), used to
check its natural-language specification against the code.  The adapter layer
in `src/services/api.ts` is modelled as pure functions from backend call
results to either a view model or a thrown `ApiError`; the stateful
components (`FileUpload`, `BloodReportChecker`, `ChatBot`, the `Index` page)
are modelled as explicit state-transition functions over their React state
variables.  JavaScript falsy-based defaulting (`x || d`) is modelled by
`jsOrStr` for strings (the empty string is falsy) and by `Option.getD` for
arrays (a present empty array is truthy in JavaScript, so only an absent
field falls back).
-/

namespace MedAnalyzer

/-- JavaScript `s || d` on strings: the empty string is falsy. -/
def jsOrStr (s d : String) : String :=
  if s = "" then d else s

/-- Falsiness of `s.trim()` in JavaScript: the trimmed string is empty
exactly when the string consists only of whitespace. -/
def jsTrimEmpty (s : String) : Bool :=
  s.data.all Char.isWhitespace

/-- JavaScript `o || d` where `o` is a possibly absent string field. -/
def jsOrOptStr (o : Option String) (d : String) : String :=
  match o with
  | none => d
  | some s => jsOrStr s d

/-- Medical entity, as in `src/types/api.ts`. -/
structure Entity where
  text : String
  type : String
  confidence : Rat
deriving DecidableEq, Repr

/-- ICD code entry, as in `src/types/api.ts`. -/
structure IcdCode where
  code : String
  description : String
deriving DecidableEq, Repr

/-- The fully populated analysis view model built by
`documentApi.getMedicalAnalysis` (`src/services/api.ts`). -/
structure AnalysisResponse where
  success : Bool
  primary_diagnosis : String
  prescribed_medication : List String
  followup_instructions : String
  medical_entities : List Entity
  icd_codes : List IcdCode
  error : Option String
deriving DecidableEq, Repr

/-- Raw body of a `/summary/structured-analysis` response; every field may be
absent from the wire format. -/
structure StructuredData where
  success : Option Bool
  primary_diagnosis : Option String
  prescribed_medication : Option (List String)
  followup_instructions : Option String
  medical_entities : Option (List Entity)
  error : Option String
deriving DecidableEq, Repr

/-- Raw body of an `/icd/analyze` response. -/
structure IcdData where
  icd_codes : Option (List IcdCode)
deriving DecidableEq, Repr

/-- An axios rejection as inspected by `handleError`: either a response was
received (`error.response`, carrying the HTTP status and an optional backend
`detail` field) or no response arrived (`error.request` only).  `jsMessage`
is the `message` property of the underlying JavaScript `Error` object. -/
inductive AxiosFailure where
  | withResponse (status : Nat) (detail : Option String) (jsMessage : String)
  | noResponse (jsMessage : String)
deriving DecidableEq, Repr

/-- The `message` property of the JavaScript error behind an axios failure. -/
def AxiosFailure.jsMessage : AxiosFailure → String
  | .withResponse _ _ m => m
  | .noResponse m => m

/-- A value caught by an adapter `catch` block: either an axios failure from
`api.post`, or a plain `new Error(msg)` thrown by the adapter itself (which
has neither `response` nor `request`). -/
inductive CaughtError where
  | axios (f : AxiosFailure)
  | jsError (msg : String)
deriving DecidableEq, Repr

/-- The error object thrown by `handleError` (the `data` payload of the
response branch is not modelled; no claim concerns it). -/
structure ApiError where
  message : String
  status : Nat
deriving DecidableEq, Repr

/-- Embeds `handleError` from `src/services/api.ts` (lines 25-45).  The
source function always throws; its result here is the thrown object. -/
def handleError : CaughtError → ApiError
  | .axios (.withResponse status detail _) =>
      { message := jsOrOptStr detail "An error occurred", status := status }
  | .axios (.noResponse _) =>
      { message := "Server not responding. Please try again later.", status := 503 }
  | .jsError msg =>
      { message := jsOrStr msg "An unexpected error occurred", status := 500 }

/-- Outcome of one `api.post` call: either the parsed response body, or an
axios rejection. -/
inductive CallResult (α : Type) where
  | ok (data : α)
  | fail (f : AxiosFailure)
deriving DecidableEq, Repr

/-- Body of a `/pdf/upload` response. -/
structure UploadData where
  text : String
deriving DecidableEq, Repr

namespace documentApi

/-- Embeds `documentApi.uploadPdf`: returns `response.data`, routing any
axios failure through `handleError`. -/
def uploadPdf (resp : CallResult UploadData) : Except ApiError UploadData :=
  match resp with
  | .ok d => .ok d
  | .fail f => .error (handleError (.axios f))

/-- Result shape of `documentApi.analyzeText`: the spread
`{...response.data, icd_codes: icdResponse.data.icd_codes || []}` leaves
every field of the raw structured body optional except `icd_codes`. -/
structure AnalysisValue where
  success : Option Bool
  primary_diagnosis : Option String
  prescribed_medication : Option (List String)
  followup_instructions : Option String
  medical_entities : Option (List Entity)
  icd_codes : List IcdCode
  error : Option String
deriving DecidableEq, Repr

/-- The fallback object returned by the `catch` block of
`documentApi.analyzeText`. -/
def fallbackAnalysisValue (msg : String) : AnalysisValue :=
  { success := some false, primary_diagnosis := some "",
    prescribed_medication := some [], followup_instructions := some "",
    medical_entities := some [], icd_codes := [], error := some msg }

/-- Embeds `documentApi.analyzeText` (`src/services/api.ts` lines 62-88).
The structured-analysis call happens first; if it rejects, the ICD call is
never made and the result does not depend on it.  Axios rejections are
instances of `Error`, so the fallback carries their `message` property. -/
def analyzeText (structured : CallResult (Option StructuredData))
    (icd : CallResult IcdData) : AnalysisValue :=
  match structured with
  | .fail f => fallbackAnalysisValue f.jsMessage
  | .ok sdata =>
    match icd with
    | .fail f => fallbackAnalysisValue f.jsMessage
    | .ok idata =>
      match sdata with
      | none =>
          { success := none, primary_diagnosis := none,
            prescribed_medication := none, followup_instructions := none,
            medical_entities := none, icd_codes := idata.icd_codes.getD [],
            error := none }
      | some d =>
          { success := d.success, primary_diagnosis := d.primary_diagnosis,
            prescribed_medication := d.prescribed_medication,
            followup_instructions := d.followup_instructions,
            medical_entities := d.medical_entities,
            icd_codes := idata.icd_codes.getD [], error := d.error }

/-- Embeds `documentApi.getMedicalAnalysis` (`src/services/api.ts` lines
90-118).  The structured-analysis call is made first, then the ICD call;
only then is `response.data.success` checked.  A thrown `new Error` is
classified by `handleError` into its third branch (status 500). -/
def getMedicalAnalysis (structured : CallResult (Option StructuredData))
    (icd : CallResult IcdData) : Except ApiError AnalysisResponse :=
  match structured with
  | .fail f => .error (handleError (.axios f))
  | .ok sdata =>
    match icd with
    | .fail f => .error (handleError (.axios f))
    | .ok idata =>
      match sdata with
      | none => .error (handleError (.jsError "Analysis failed"))
      | some d =>
        if d.success.getD false = false then
          .error (handleError (.jsError (jsOrOptStr d.error "Analysis failed")))
        else
          .ok { success := true,
                primary_diagnosis := d.primary_diagnosis.getD "",
                prescribed_medication := d.prescribed_medication.getD [],
                followup_instructions := d.followup_instructions.getD "",
                medical_entities := d.medical_entities.getD [],
                icd_codes := idata.icd_codes.getD [],
                error := d.error }

end documentApi

/-- One blood test row, as in `BloodReportChecker.tsx`. -/
structure BloodTest where
  testName : String
  value : Rat
  unit : String
  normalRange : Option String
  status : Option String
  severity : Option String
deriving DecidableEq, Repr

/-- Raw `summary` object of a blood endpoint response; each count may be
absent. -/
structure RawSummary where
  normalCount : Option Int
  abnormalCount : Option Int
  criticalCount : Option Int
deriving DecidableEq, Repr

/-- Fully defaulted summary produced by `bloodApi.analyzeTests`. -/
structure BloodSummary where
  normalCount : Int
  abnormalCount : Int
  criticalCount : Int
deriving DecidableEq, Repr

/-- Raw body of `/blood/analyze` and `/blood/upload-blood-report`
responses; every field may be absent. -/
structure RawBloodData where
  summary : Option RawSummary
  tests : Option (List BloodTest)
  interpretation : Option String
  recommendations : Option (List String)
deriving DecidableEq, Repr

/-- Result of `bloodApi.analyzeTests`: summary and tests are forced
present, the remaining fields are passed through unchanged. -/
structure BloodResult where
  summary : BloodSummary
  tests : List BloodTest
  interpretation : Option String
  recommendations : Option (List String)
deriving DecidableEq, Repr

/-- The spread `{normalCount: 0, abnormalCount: 0, criticalCount: 0,
...(response.data.summary || {})}`: an absent summary (or absent field)
falls back to zero, a present field wins. -/
def mergeSummary (o : Option RawSummary) : BloodSummary :=
  match o with
  | none => { normalCount := 0, abnormalCount := 0, criticalCount := 0 }
  | some r =>
      { normalCount := r.normalCount.getD 0,
        abnormalCount := r.abnormalCount.getD 0,
        criticalCount := r.criticalCount.getD 0 }

namespace bloodApi

/-- Embeds `bloodApi.analyzeTests` (`src/services/api.ts` lines 185-208).
A null or non-object body raises `new Error("Invalid response format from
server")`, which `handleError` classifies with status 500; otherwise the
summary is merged over zero defaults and `tests` falls back to `[]`. -/
def analyzeTests (resp : CallResult (Option RawBloodData)) :
    Except ApiError BloodResult :=
  match resp with
  | .fail f => .error (handleError (.axios f))
  | .ok none => .error (handleError (.jsError "Invalid response format from server"))
  | .ok (some d) =>
      .ok { summary := mergeSummary d.summary,
            tests := d.tests.getD [],
            interpretation := d.interpretation,
            recommendations := d.recommendations }

/-- Embeds `bloodApi.uploadReport` (`src/services/api.ts` lines 210-231).
A null or non-object body is rejected exactly as in `analyzeTests`, but an
object body is returned unchanged: no summary or tests defaulting is
applied. -/
def uploadReport (resp : CallResult (Option RawBloodData)) :
    Except ApiError RawBloodData :=
  match resp with
  | .fail f => .error (handleError (.axios f))
  | .ok none => .error (handleError (.jsError "Invalid response format from server"))
  | .ok (some d) => .ok d

end bloodApi

/-- Client-side metadata of a selected file (the `File` object fields the
components inspect). -/
structure FileMeta where
  name : String
  type : String
  size : Nat
deriving DecidableEq, Repr

/-- The MIME-type whitelist of the document-upload component
(`FileUpload.tsx`, `acceptedTypes`). -/
def acceptedTypes : List String :=
  ["application/pdf", "image/jpeg", "image/jpg", "image/png", "image/gif"]

/-- The 10 MB size ceiling shared by both upload components. -/
def maxFileSize : Nat := 10 * 1024 * 1024

namespace FileUpload

/-- React state of the `FileUpload` component (`FileUpload.tsx`). -/
structure State where
  selectedFile : Option FileMeta
  extractedText : String
  showTextEditor : Bool
  isLoading : Bool
  icdCodes : List IcdCode
deriving DecidableEq, Repr

/-- Observable outcome of one `FileUpload` handler run: the final component
state, the message passed to `onError` (if any), the result passed to
`onAnalysisComplete` (if any), and whether any adapter call was issued. -/
structure StepResult where
  state : State
  errorMsg : Option String
  completed : Option AnalysisResponse
  apiCalled : Bool
deriving DecidableEq, Repr

/-- Embeds `handleFileSelection` of `FileUpload.tsx` (the upload-then-extract
variant, lines 366-405; the validation prefix is identical in the other
variant, lines 57-70).  Validation failures return before any adapter call.
On a valid file, `selectedFile` is set, `uploadPdf` runs, and on success the
extracted text is shown and `analyzeText` seeds the ICD-code panel; the
`catch` block surfaces the error but does not clear `selectedFile`. -/
def handleFileSelection (s : State) (file : FileMeta)
    (upload : CallResult UploadData)
    (structured : CallResult (Option StructuredData))
    (icd : CallResult IcdData) : StepResult :=
  if acceptedTypes.contains file.type = false then
    { state := s,
      errorMsg := some "Please upload a PDF or image file (JPEG, PNG, GIF)",
      completed := none, apiCalled := false }
  else if maxFileSize < file.size then
    { state := s, errorMsg := some "File size must be less than 10MB",
      completed := none, apiCalled := false }
  else
    match documentApi.uploadPdf upload with
    | .error e =>
        { state := { s with selectedFile := some file, isLoading := false },
          errorMsg := some (jsOrStr e.message "Failed to process file"),
          completed := none, apiCalled := true }
    | .ok u =>
        let v := documentApi.analyzeText structured icd
        { state := { s with selectedFile := some file,
                            extractedText := u.text, showTextEditor := true,
                            isLoading := false,
                            icdCodes := (match v.icd_codes with
                                         | [] => s.icdCodes
                                         | l => l) },
          errorMsg := none, completed := none, apiCalled := true }

/-- Embeds `handleAnalyze` of `FileUpload.tsx` (lines 427-461; the variant
at lines 152-180 behaves identically on failure, it only lacks the
`icdCodes` update on success).  On failure only the loading flag changes
and an error is surfaced; the editable text and the editor flag are kept. -/
def handleAnalyze (s : State)
    (structured : CallResult (Option StructuredData))
    (icd : CallResult IcdData) : StepResult :=
  if jsTrimEmpty s.extractedText = true then
    { state := s, errorMsg := some "Please provide text to analyze",
      completed := none, apiCalled := false }
  else
    match documentApi.getMedicalAnalysis structured icd with
    | .error e =>
        { state := { s with isLoading := false },
          errorMsg := some (jsOrStr e.message "Failed to analyze text"),
          completed := none, apiCalled := true }
    | .ok r =>
        { state := { s with isLoading := false,
                            icdCodes := (match r.icd_codes with
                                         | [] => s.icdCodes
                                         | l => l) },
          errorMsg := none, completed := some r, apiCalled := true }

end FileUpload

namespace BloodReportChecker

/-- React state of the `BloodReportChecker` component relevant to the
upload workflow. -/
structure State where
  selectedFile : Option FileMeta
  isLoading : Bool
deriving DecidableEq, Repr

/-- Observable outcome of one `BloodReportChecker` selection run. -/
structure StepResult where
  state : State
  errorMsg : Option String
  completed : Option RawBloodData
  apiCalled : Bool
deriving DecidableEq, Repr

/-- Embeds `handleFileSelection` plus `analyzeReport` of
`BloodReportChecker.tsx` (lines 105-140): PDF-only whitelist, 10 MB
ceiling, then `bloodApi.uploadReport`; the `catch` block surfaces the error
and clears the file selection with `setSelectedFile(null)`. -/
def handleFileSelection (s : State) (file : FileMeta)
    (resp : CallResult (Option RawBloodData)) : StepResult :=
  if file.type ≠ "application/pdf" then
    { state := s, errorMsg := some "Please upload a PDF file only",
      completed := none, apiCalled := false }
  else if maxFileSize < file.size then
    { state := s, errorMsg := some "File size must be less than 10MB",
      completed := none, apiCalled := false }
  else
    match bloodApi.uploadReport resp with
    | .error e =>
        { state := { s with selectedFile := none, isLoading := false },
          errorMsg := some (jsOrStr e.message "Failed to analyze blood test results"),
          completed := none, apiCalled := true }
    | .ok d =>
        { state := { s with selectedFile := some file, isLoading := false },
          errorMsg := none, completed := some d, apiCalled := true }

end BloodReportChecker

namespace ChatBot

/-- One chat turn of the `ChatBot` log (`InsightsBar.tsx`); the `Date`
timestamp is not modelled, no claim depends on it. -/
structure Message where
  id : String
  text : String
  isUser : Bool
deriving DecidableEq, Repr

/-- One entry of the outgoing request context. -/
structure MessageContext where
  role : String
  content : String
deriving DecidableEq, Repr

/-- JavaScript `list.slice(-n)`: the `n` most recent elements (all of them
when the list is shorter). -/
def sliceLast (n : Nat) (l : List α) : List α :=
  l.drop (l.length - n)

/-- The per-message mapping used to build the outgoing context. -/
def toContext (m : Message) : MessageContext :=
  { role := if m.isUser then "user" else "assistant", content := m.text }

/-- The fixed fallback apology appended when a chat send fails. -/
def fallbackChatText : String :=
  "I apologize, but I'm having trouble processing your request right now. Please try again."

/-- Result of awaiting `chatApi.sendMessage`: either the normalized response
message, or a rejection whose text the component never displays. -/
inductive ChatCallOutcome where
  | success (message : String)
  | failure (errText : String)
deriving DecidableEq, Repr

/-- Observable outcome of one `handleSendMessage` run: the final message
log and the issued request (text plus context), `none` when no request was
made. -/
structure SendTrace where
  log : List Message
  request : Option (String × List MessageContext)
deriving DecidableEq, Repr

/-- Embeds `handleSendMessage` of the `ChatBot` component
(`InsightsBar.tsx`, lines 125-176).  The context is computed from the
`messages` state captured before the new user turn is appended
(`messages.slice(-5)`), so it never contains the message being sent.  On
failure the `catch` block appends the fixed apology turn; the rejection
text is never appended and the handler never rethrows. -/
def handleSendMessage (messages : List Message) (inputText : String)
    (userId aiId : String) (outcome : ChatCallOutcome) : SendTrace :=
  if jsTrimEmpty inputText = true then
    { log := messages, request := none }
  else
    let userMessage : Message := { id := userId, text := inputText, isUser := true }
    let context := (sliceLast 5 messages).map toContext
    match outcome with
    | .success msg =>
        { log := messages ++ [userMessage, { id := aiId, text := msg, isUser := false }],
          request := some (inputText, context) }
    | .failure _ =>
        { log := messages ++ [userMessage, { id := aiId, text := fallbackChatText, isUser := false }],
          request := some (inputText, context) }

end ChatBot

namespace Index

/-- The three input-method tabs of the `Index` page. -/
inductive Tab where
  | upload
  | manual
  | bloodreport
deriving DecidableEq, Repr

/-- React state of the `Index` page (`Index.tsx`, lines 12-17), extended
with the number of in-flight analysis and blood-upload requests — implicit
program state (outstanding promises) that determines which completion
callbacks can still fire. -/
structure State where
  activeTab : Tab
  analysisData : Option AnalysisResponse
  bloodReportData : Option RawBloodData
  isLoading : Bool
  error : String
  pendingAnalysis : Nat
  pendingBlood : Nat
deriving DecidableEq, Repr

/-- Initial `Index` state (`useState` initializers, no request in flight). -/
def initState : State :=
  { activeTab := .upload, analysisData := none, bloodReportData := none,
    isLoading := false, error := "", pendingAnalysis := 0, pendingBlood := 0 }

/-- Events of the `Index` page: the tab selector
(`onValueChange={setActiveTab}`), the start of an analysis or blood-upload
request in a child component, the completion callbacks those requests fire
when their promise settles, validation errors raised without any request,
and the reset passed to the result views. -/
inductive Event where
  | selectTab (t : Tab)
  | startAnalysis
  | startBlood
  | analysisComplete (d : AnalysisResponse)
  | analysisFailed (msg : String)
  | bloodReportComplete (d : RawBloodData)
  | bloodFailed (msg : String)
  | validationFailed (msg : String)
  | reset
deriving DecidableEq, Repr

/-- Which events can fire in a given state.  User actions are gated by the
render logic of `Index.tsx`: the tab selector and the input components are
mounted only while no result is shown (`!analysisData && !bloodReportData`);
`FileUpload`/`ManualInput` submit on the upload and manual tabs with the
submit control disabled while `isLoading`; the `BloodReportChecker` file
input (bloodreport tab) is not disabled while `isLoading`, so a blood
upload can start while another request is still in flight.  Completion
callbacks, in contrast, are promise continuations: they fire whenever the
matching request is pending, regardless of what is currently mounted —
`handleAnalysisComplete` and `handleBloodReportComplete` (`Index.tsx`,
lines 19-28) run even after the originating component is unmounted.  Reset
buttons exist only on the result views. -/
def enabled (s : State) : Event → Prop
  | .selectTab _ => s.analysisData = none ∧ s.bloodReportData = none
  | .startAnalysis =>
      s.analysisData = none ∧ s.bloodReportData = none ∧
        (s.activeTab = .upload ∨ s.activeTab = .manual) ∧ s.isLoading = false
  | .startBlood =>
      s.analysisData = none ∧ s.bloodReportData = none ∧
        s.activeTab = .bloodreport
  | .analysisComplete _ => 0 < s.pendingAnalysis
  | .analysisFailed _ => 0 < s.pendingAnalysis
  | .bloodReportComplete _ => 0 < s.pendingBlood
  | .bloodFailed _ => 0 < s.pendingBlood
  | .validationFailed _ => s.analysisData = none ∧ s.bloodReportData = none
  | .reset => s.analysisData ≠ none ∨ s.bloodReportData ≠ none

/-- State update performed by each event: request starts set the busy flag
and add an in-flight request; the settlement of a request runs the matching
handler of `Index.tsx` (lines 19-41) and removes the in-flight request.
None of the handlers clears the other result field, and `setActiveTab`
writes nothing but the tab. -/
def step (s : State) : Event → State
  | .selectTab t => { s with activeTab := t }
  | .startAnalysis => { s with isLoading := true, pendingAnalysis := s.pendingAnalysis + 1 }
  | .startBlood => { s with isLoading := true, pendingBlood := s.pendingBlood + 1 }
  | .analysisComplete d =>
      { s with analysisData := some d, isLoading := false,
               pendingAnalysis := s.pendingAnalysis - 1 }
  | .analysisFailed m =>
      { s with error := m, isLoading := false,
               pendingAnalysis := s.pendingAnalysis - 1 }
  | .bloodReportComplete d =>
      { s with bloodReportData := some d, isLoading := false,
               pendingBlood := s.pendingBlood - 1 }
  | .bloodFailed m =>
      { s with error := m, isLoading := false,
               pendingBlood := s.pendingBlood - 1 }
  | .validationFailed m => { s with error := m, isLoading := false }
  | .reset => { s with analysisData := none, bloodReportData := none, error := "" }

/-- States reachable from the initial state through enabled events. -/
inductive Reachable : State → Prop where
  | init : Reachable initState
  | next (s : State) (e : Event) : Reachable s → enabled s e → Reachable (step s e)

/-- Restriction of `enabled` to race-free runs: a completion callback may
additionally fire only while its originating component is still mounted, so
no in-flight request outlives the view that issued it.  The program does
not enforce this; it is the proviso under which the exclusivity invariant
below holds. -/
def enabledNoRace (s : State) : Event → Prop
  | .analysisComplete d =>
      enabled s (.analysisComplete d) ∧
        s.analysisData = none ∧ s.bloodReportData = none ∧
        (s.activeTab = .upload ∨ s.activeTab = .manual)
  | .bloodReportComplete d =>
      enabled s (.bloodReportComplete d) ∧
        ((s.analysisData = none ∧ s.bloodReportData = none ∧
          s.activeTab = .bloodreport) ∨ s.bloodReportData ≠ none)
  | e => enabled s e

/-- States reachable in race-free runs. -/
inductive ReachableNoRace : State → Prop where
  | init : ReachableNoRace initState
  | next (s : State) (e : Event) :
      ReachableNoRace s → enabledNoRace s e → ReachableNoRace (step s e)

end Index

/-! Helper lemmas on the JavaScript defaulting combinators. -/

/-- A fallback applied over a nonempty default never yields the empty string. -/
theorem jsOrStr_ne_empty (s d : String) (h : d ≠ "") : jsOrStr s d ≠ "" := by
  unfold jsOrStr
  split
  · exact h
  · assumption

/-- A nonempty string wins over its fallback. -/
theorem jsOrStr_of_ne (s d : String) (h : s ≠ "") : jsOrStr s d = s := by
  unfold jsOrStr
  exact if_neg h

/-- Optional fallback over a nonempty default never yields the empty string. -/
theorem jsOrOptStr_ne_empty (o : Option String) (d : String) (h : d ≠ "") :
    jsOrOptStr o d ≠ "" := by
  unfold jsOrOptStr
  cases o
  · exact h
  · exact jsOrStr_ne_empty _ _ h

/-! Theorems settling the claims. -/

/-- C1 counterexample: on the backend body `{summary: null, tests: []}` the
blood-report upload operation `bloodApi.uploadReport` returns the body
unchanged — its summary is still absent rather than the zero-defaulted
`{normalCount: 0, abnormalCount: 0, criticalCount: 0}` the claim requires,
so the defaulting does not hold for `uploadReport`. -/
theorem c1_uploadReport_no_defaulting :
    bloodApi.uploadReport (CallResult.ok (some
      { summary := none, tests := some [], interpretation := none,
        recommendations := none })) =
      Except.ok { summary := none, tests := some [], interpretation := none,
                  recommendations := none } ∧
    (none : Option RawSummary) ≠
      some { normalCount := some 0, abnormalCount := some 0, criticalCount := some 0 } :=
  ⟨rfl, by decide⟩

/-- C1 amended: for a backend response whose `summary` and `tests` fields
are absent, `bloodApi.analyzeTests` returns the zero-defaulted summary and
the empty tests array without throwing, while `bloodApi.uploadReport`
returns the backend body unchanged, applying no defaulting at all. -/
theorem c1_amended_blood_defaulting (d : RawBloodData)
    (hs : d.summary = none) (ht : d.tests = none) :
    bloodApi.analyzeTests (CallResult.ok (some d)) =
      Except.ok { summary := { normalCount := 0, abnormalCount := 0, criticalCount := 0 },
                  tests := [], interpretation := d.interpretation,
                  recommendations := d.recommendations } ∧
    bloodApi.uploadReport (CallResult.ok (some d)) = Except.ok d := by
  refine ⟨?_, rfl⟩
  simp [bloodApi.analyzeTests, mergeSummary, hs, ht]

/-- Witness for the amended C1 at the concrete body
`{summary: absent, tests: absent, interpretation: "ok"}`. -/
theorem c1_amended_blood_defaulting_witness :
    (RawBloodData.mk none none (some "ok") none).summary = none ∧
    (RawBloodData.mk none none (some "ok") none).tests = none ∧
    (bloodApi.analyzeTests (CallResult.ok (some (RawBloodData.mk none none (some "ok") none))) =
      Except.ok { summary := { normalCount := 0, abnormalCount := 0, criticalCount := 0 },
                  tests := [], interpretation := some "ok", recommendations := none } ∧
     bloodApi.uploadReport (CallResult.ok (some (RawBloodData.mk none none (some "ok") none))) =
      Except.ok (RawBloodData.mk none none (some "ok") none)) :=
  ⟨rfl, rfl, c1_amended_blood_defaulting (RawBloodData.mk none none (some "ok") none) rfl rfl⟩

/-- C2: `documentApi.getMedicalAnalysis` calls the structured-analysis
endpoint, then the ICD endpoint, and merges both: on a successful
structured response the result takes `icd_codes` from the ICD body
(defaulting to `[]`) and the remaining fields from the structured body
with strings defaulting to `""` and arrays to `[]`; if either call receives
no response it fails with the BackendUnavailable error (status 503, message
"Server not responding. Please try again later."); if either call is
rejected with a response it fails with the BackendRejected error carrying
the backend detail (or a generic fallback) and the response status; and a
received body that is null or reports failure is rejected with the backend
error text (or a generic fallback) at status 500.  Required fields can
never be absent after defaulting, so the MalformedResponse case is
vacuous. -/
theorem c2_getMedicalAnalysis_contract :
    (∀ (d : StructuredData) (idata : IcdData), d.success = some true →
      documentApi.getMedicalAnalysis (CallResult.ok (some d)) (CallResult.ok idata) =
        Except.ok { success := true,
                    primary_diagnosis := d.primary_diagnosis.getD "",
                    prescribed_medication := d.prescribed_medication.getD [],
                    followup_instructions := d.followup_instructions.getD "",
                    medical_entities := d.medical_entities.getD [],
                    icd_codes := idata.icd_codes.getD [],
                    error := d.error }) ∧
    (∀ (icd : CallResult IcdData) (m : String),
      documentApi.getMedicalAnalysis (CallResult.fail (AxiosFailure.noResponse m)) icd =
        Except.error { message := "Server not responding. Please try again later.", status := 503 }) ∧
    (∀ (sdata : Option StructuredData) (m : String),
      documentApi.getMedicalAnalysis (CallResult.ok sdata) (CallResult.fail (AxiosFailure.noResponse m)) =
        Except.error { message := "Server not responding. Please try again later.", status := 503 }) ∧
    (∀ (icd : CallResult IcdData) (st : Nat) (det : Option String) (m : String),
      documentApi.getMedicalAnalysis (CallResult.fail (AxiosFailure.withResponse st det m)) icd =
        Except.error { message := jsOrOptStr det "An error occurred", status := st }) ∧
    (∀ (sdata : Option StructuredData) (st : Nat) (det : Option String) (m : String),
      documentApi.getMedicalAnalysis (CallResult.ok sdata) (CallResult.fail (AxiosFailure.withResponse st det m)) =
        Except.error { message := jsOrOptStr det "An error occurred", status := st }) ∧
    (∀ (d : StructuredData) (idata : IcdData), d.success.getD false = false →
      documentApi.getMedicalAnalysis (CallResult.ok (some d)) (CallResult.ok idata) =
        Except.error { message := jsOrOptStr d.error "Analysis failed", status := 500 }) ∧
    (∀ idata : IcdData,
      documentApi.getMedicalAnalysis (CallResult.ok none) (CallResult.ok idata) =
        Except.error { message := "Analysis failed", status := 500 }) := by
  refine ⟨?_, ?_, ?_, ?_, ?_, ?_, ?_⟩
  · intro d idata h
    simp only [documentApi.getMedicalAnalysis, h]
    rfl
  · intro icd m
    cases icd <;> rfl
  · intro sdata m
    rfl
  · intro icd st det m
    cases icd <;> rfl
  · intro sdata st det m
    rfl
  · intro d idata h
    simp only [documentApi.getMedicalAnalysis, h]
    rw [if_pos trivial]
    simp only [handleError]
    rw [jsOrStr_of_ne _ _ (jsOrOptStr_ne_empty d.error "Analysis failed" (by decide))]
  · intro idata
    rfl

/-- Witness for C2 at a concrete successful pair of responses. -/
theorem c2_getMedicalAnalysis_contract_witness :
    documentApi.getMedicalAnalysis (CallResult.ok (some
      { success := some true, primary_diagnosis := some "Influenza",
        prescribed_medication := none, followup_instructions := none,
        medical_entities := none, error := none }))
      (CallResult.ok { icd_codes := some [{ code := "J10", description := "Influenza" }] }) =
      Except.ok { success := true, primary_diagnosis := "Influenza",
                  prescribed_medication := [], followup_instructions := "",
                  medical_entities := [],
                  icd_codes := [{ code := "J10", description := "Influenza" }],
                  error := none } :=
  c2_getMedicalAnalysis_contract.1
    { success := some true, primary_diagnosis := some "Influenza",
      prescribed_medication := none, followup_instructions := none,
      medical_entities := none, error := none }
    { icd_codes := some [{ code := "J10", description := "Influenza" }] } rfl

/-- C3 counterexample: a state with BOTH result fields non-null is
reachable, refuting the claimed invariant.  The trace: start a document
analysis on the upload tab, switch to the blood-report tab (both results
still null, so the selector is mounted), upload a blood report (its file
input is not disabled while loading), let the blood upload complete, and
then let the still-pending document analysis resolve — its completion
callback fires after its component was unmounted and sets `analysisData`
with `bloodReportData` already non-null.  `setActiveTab` and the completion
handlers clear nothing, so nothing prevents this state. -/
theorem c3_both_results_reachable :
    Index.Reachable
      { activeTab := Index.Tab.bloodreport,
        analysisData := some { success := true, primary_diagnosis := "Influenza",
                               prescribed_medication := [], followup_instructions := "",
                               medical_entities := [], icd_codes := [], error := none },
        bloodReportData := some { summary := none, tests := some [],
                                  interpretation := none, recommendations := none },
        isLoading := false, error := "", pendingAnalysis := 0, pendingBlood := 0 } ∧
    ({ activeTab := Index.Tab.bloodreport,
       analysisData := some { success := true, primary_diagnosis := "Influenza",
                              prescribed_medication := [], followup_instructions := "",
                              medical_entities := [], icd_codes := [], error := none },
       bloodReportData := some { summary := none, tests := some [],
                                 interpretation := none, recommendations := none },
       isLoading := false, error := "", pendingAnalysis := 0,
       pendingBlood := 0 } : Index.State).analysisData ≠ none ∧
    ({ activeTab := Index.Tab.bloodreport,
       analysisData := some { success := true, primary_diagnosis := "Influenza",
                              prescribed_medication := [], followup_instructions := "",
                              medical_entities := [], icd_codes := [], error := none },
       bloodReportData := some { summary := none, tests := some [],
                                 interpretation := none, recommendations := none },
       isLoading := false, error := "", pendingAnalysis := 0,
       pendingBlood := 0 } : Index.State).bloodReportData ≠ none := by
  refine ⟨?_, by simp, by simp⟩
  exact
    Index.Reachable.next _
      (Index.Event.analysisComplete
        { success := true, primary_diagnosis := "Influenza",
          prescribed_medication := [], followup_instructions := "",
          medical_entities := [], icd_codes := [], error := none })
      (Index.Reachable.next _
        (Index.Event.bloodReportComplete
          { summary := none, tests := some [],
            interpretation := none, recommendations := none })
        (Index.Reachable.next _ Index.Event.startBlood
          (Index.Reachable.next _ (Index.Event.selectTab Index.Tab.bloodreport)
            (Index.Reachable.next _ Index.Event.startAnalysis
              Index.Reachable.init
              ⟨rfl, rfl, Or.inl rfl, rfl⟩)
            ⟨rfl, rfl⟩)
          ⟨rfl, rfl, rfl⟩)
        Nat.one_pos)
      Nat.one_pos

/-- In every race-free-reachable `Index` state at least one of the two
result fields is null (auxiliary induction for the amended C3). -/
theorem reachableNoRace_result_exclusive {s : Index.State}
    (h : Index.ReachableNoRace s) :
    s.analysisData = none ∨ s.bloodReportData = none := by
  induction h with
  | init => exact Or.inl rfl
  | next s e hr he ih =>
      cases e with
      | selectTab t => exact ih
      | startAnalysis => exact ih
      | startBlood => exact ih
      | analysisComplete d => exact Or.inr he.2.2.1
      | analysisFailed m => exact ih
      | bloodReportComplete d =>
          rcases he.2 with ⟨h1, _, _⟩ | hb
          · exact Or.inl h1
          · rcases ih with ha | hbn
            · exact Or.inl ha
            · exact absurd hbn hb
      | bloodFailed m => exact ih
      | validationFailed m => exact ih
      | reset => exact Or.inl rfl

/-- C3 amended: the exclusivity invariant holds only for race-free runs —
runs in which every completion callback fires while its originating
component is still mounted (no in-flight request outlives the view that
issued it; the code itself has no such guard).  In every state reachable
under that proviso the two result fields are never both non-null, and
selecting a new input method — which writes only the tab and can fire only
while no result is shown — leaves both result fields null. -/
theorem c3_amended_result_exclusivity (s : Index.State)
    (h : Index.ReachableNoRace s) :
    ¬(s.analysisData ≠ none ∧ s.bloodReportData ≠ none) ∧
    (∀ t : Index.Tab, Index.enabled s (Index.Event.selectTab t) →
      (Index.step s (Index.Event.selectTab t)).analysisData = none ∧
      (Index.step s (Index.Event.selectTab t)).bloodReportData = none) := by
  constructor
  · rintro ⟨ha, hb⟩
    rcases reachableNoRace_result_exclusive h with h1 | h1
    · exact ha h1
    · exact hb h1
  · intro t ht
    exact ⟨ht.1, ht.2⟩

/-- Witness for the amended C3 at the race-free-reachable state obtained by
starting and completing one document analysis from the initial state. -/
theorem c3_amended_result_exclusivity_witness :
    ¬(({ activeTab := Index.Tab.upload,
         analysisData := some { success := true, primary_diagnosis := "Influenza",
                                prescribed_medication := [], followup_instructions := "",
                                medical_entities := [], icd_codes := [], error := none },
         bloodReportData := none, isLoading := false, error := "",
         pendingAnalysis := 0, pendingBlood := 0 } : Index.State).analysisData ≠ none ∧
      ({ activeTab := Index.Tab.upload,
         analysisData := some { success := true, primary_diagnosis := "Influenza",
                                prescribed_medication := [], followup_instructions := "",
                                medical_entities := [], icd_codes := [], error := none },
         bloodReportData := none, isLoading := false, error := "",
         pendingAnalysis := 0, pendingBlood := 0 } : Index.State).bloodReportData ≠ none) ∧
    (∀ t : Index.Tab,
      Index.enabled ({ activeTab := Index.Tab.upload,
                       analysisData := some { success := true, primary_diagnosis := "Influenza",
                                              prescribed_medication := [], followup_instructions := "",
                                              medical_entities := [], icd_codes := [], error := none },
                       bloodReportData := none, isLoading := false, error := "",
                       pendingAnalysis := 0, pendingBlood := 0 } : Index.State) (Index.Event.selectTab t) →
      (Index.step ({ activeTab := Index.Tab.upload,
                     analysisData := some { success := true, primary_diagnosis := "Influenza",
                                            prescribed_medication := [], followup_instructions := "",
                                            medical_entities := [], icd_codes := [], error := none },
                     bloodReportData := none, isLoading := false, error := "",
                     pendingAnalysis := 0, pendingBlood := 0 } : Index.State)
        (Index.Event.selectTab t)).analysisData = none ∧
      (Index.step ({ activeTab := Index.Tab.upload,
                     analysisData := some { success := true, primary_diagnosis := "Influenza",
                                            prescribed_medication := [], followup_instructions := "",
                                            medical_entities := [], icd_codes := [], error := none },
                     bloodReportData := none, isLoading := false, error := "",
                     pendingAnalysis := 0, pendingBlood := 0 } : Index.State)
        (Index.Event.selectTab t)).bloodReportData = none) :=
  c3_amended_result_exclusivity _
    (Index.ReachableNoRace.next _
      (Index.Event.analysisComplete
        { success := true, primary_diagnosis := "Influenza",
          prescribed_medication := [], followup_instructions := "",
          medical_entities := [], icd_codes := [], error := none })
      (Index.ReachableNoRace.next _ Index.Event.startAnalysis
        Index.ReachableNoRace.init
        ⟨rfl, rfl, Or.inl rfl, rfl⟩)
      ⟨Nat.one_pos, rfl, rfl, Or.inl rfl⟩)

/-- C4: for every chat send from a log with at least 5 turns, the outgoing
request context is exactly the image of the 5 most recent log turns prior
to the new user turn, in log order, and the older turns all remain in the
updated UI log (the log is only appended to); the context is computed from
the log captured before the new user message is appended. -/
theorem c4_chat_context_window (messages : List ChatBot.Message)
    (inputText userId aiId : String) (outcome : ChatBot.ChatCallOutcome)
    (hlen : 5 ≤ messages.length) (hne : ¬jsTrimEmpty inputText = true) :
    ∃ older recent, messages = older ++ recent ∧ recent.length = 5 ∧
      (ChatBot.handleSendMessage messages inputText userId aiId outcome).request =
        some (inputText, recent.map ChatBot.toContext) ∧
      ∃ newTurns,
        (ChatBot.handleSendMessage messages inputText userId aiId outcome).log =
          older ++ recent ++ newTurns := by
  refine ⟨messages.take (messages.length - 5), messages.drop (messages.length - 5),
    (List.take_append_drop _ messages).symm, ?_, ?_, ?_⟩
  · rw [List.length_drop]
    omega
  · unfold ChatBot.handleSendMessage
    rw [if_neg hne]
    cases outcome <;> rfl
  · unfold ChatBot.handleSendMessage
    rw [if_neg hne]
    cases outcome with
    | success msg =>
        refine ⟨[⟨userId, inputText, true⟩, ⟨aiId, msg, false⟩], ?_⟩
        rw [List.take_append_drop]
    | failure e =>
        refine ⟨[⟨userId, inputText, true⟩, ⟨aiId, ChatBot.fallbackChatText, false⟩], ?_⟩
        rw [List.take_append_drop]

/-- Witness for C4: the log holds the greeting plus 7 appended turns; the
8th send forwards exactly turns m4 to m8 as context. -/
theorem c4_chat_context_window_witness :
    (ChatBot.handleSendMessage
      ([⟨"1", "m1", false⟩, ⟨"2", "m2", true⟩, ⟨"3", "m3", false⟩, ⟨"4", "m4", true⟩,
        ⟨"5", "m5", false⟩, ⟨"6", "m6", true⟩, ⟨"7", "m7", false⟩, ⟨"8", "m8", true⟩]
        : List ChatBot.Message) "q" "9" "10" (ChatBot.ChatCallOutcome.success "ok")).request =
      some ("q", [⟨"user", "m4"⟩, ⟨"assistant", "m5"⟩, ⟨"user", "m6"⟩,
                  ⟨"assistant", "m7"⟩, ⟨"user", "m8"⟩]) ∧
    (∃ older recent,
      ([⟨"1", "m1", false⟩, ⟨"2", "m2", true⟩, ⟨"3", "m3", false⟩, ⟨"4", "m4", true⟩,
        ⟨"5", "m5", false⟩, ⟨"6", "m6", true⟩, ⟨"7", "m7", false⟩, ⟨"8", "m8", true⟩]
        : List ChatBot.Message) = older ++ recent ∧ recent.length = 5 ∧
      (ChatBot.handleSendMessage
        [⟨"1", "m1", false⟩, ⟨"2", "m2", true⟩, ⟨"3", "m3", false⟩, ⟨"4", "m4", true⟩,
         ⟨"5", "m5", false⟩, ⟨"6", "m6", true⟩, ⟨"7", "m7", false⟩, ⟨"8", "m8", true⟩]
        "q" "9" "10" (ChatBot.ChatCallOutcome.success "ok")).request =
        some ("q", recent.map ChatBot.toContext) ∧
      ∃ newTurns,
        (ChatBot.handleSendMessage
          [⟨"1", "m1", false⟩, ⟨"2", "m2", true⟩, ⟨"3", "m3", false⟩, ⟨"4", "m4", true⟩,
           ⟨"5", "m5", false⟩, ⟨"6", "m6", true⟩, ⟨"7", "m7", false⟩, ⟨"8", "m8", true⟩]
          "q" "9" "10" (ChatBot.ChatCallOutcome.success "ok")).log =
          older ++ recent ++ newTurns) :=
  ⟨rfl, c4_chat_context_window
    [⟨"1", "m1", false⟩, ⟨"2", "m2", true⟩, ⟨"3", "m3", false⟩, ⟨"4", "m4", true⟩,
     ⟨"5", "m5", false⟩, ⟨"6", "m6", true⟩, ⟨"7", "m7", false⟩, ⟨"8", "m8", true⟩]
    "q" "9" "10" (ChatBot.ChatCallOutcome.success "ok") (by decide) (by decide)⟩

/-- C5: if the analysis request issued from the Extracted state fails, the
workflow keeps the edited text and the editor flag (and the file selection
and ICD panel) unchanged, resets only the loading flag, surfaces an error
message, and completes no analysis — so the user can retry without
re-uploading. -/
theorem c5_analyze_failure_preserves_text (s : FileUpload.State)
    (structured : CallResult (Option StructuredData)) (icd : CallResult IcdData)
    (e : ApiError) (hne : ¬jsTrimEmpty s.extractedText = true)
    (hfail : documentApi.getMedicalAnalysis structured icd = Except.error e) :
    (FileUpload.handleAnalyze s structured icd).state.extractedText = s.extractedText ∧
    (FileUpload.handleAnalyze s structured icd).state.showTextEditor = s.showTextEditor ∧
    (FileUpload.handleAnalyze s structured icd).state.selectedFile = s.selectedFile ∧
    (FileUpload.handleAnalyze s structured icd).state.icdCodes = s.icdCodes ∧
    (FileUpload.handleAnalyze s structured icd).state.isLoading = false ∧
    (FileUpload.handleAnalyze s structured icd).errorMsg =
      some (jsOrStr e.message "Failed to analyze text") ∧
    (FileUpload.handleAnalyze s structured icd).completed = none := by
  unfold FileUpload.handleAnalyze
  rw [if_neg hne, hfail]
  exact ⟨rfl, rfl, rfl, rfl, rfl, rfl, rfl⟩

/-- Witness for C5: a simulated backend 500 on the structured-analysis call
leaves the edited text and the editor flag intact. -/
theorem c5_analyze_failure_preserves_text_witness :
    (FileUpload.handleAnalyze
      { selectedFile := none, extractedText := "edited text", showTextEditor := true,
        isLoading := true, icdCodes := [] }
      (CallResult.fail (AxiosFailure.withResponse 500 none "Request failed with status code 500"))
      (CallResult.ok { icd_codes := none })).state.extractedText = "edited text" ∧
    (FileUpload.handleAnalyze
      { selectedFile := none, extractedText := "edited text", showTextEditor := true,
        isLoading := true, icdCodes := [] }
      (CallResult.fail (AxiosFailure.withResponse 500 none "Request failed with status code 500"))
      (CallResult.ok { icd_codes := none })).state.showTextEditor = true ∧
    (FileUpload.handleAnalyze
      { selectedFile := none, extractedText := "edited text", showTextEditor := true,
        isLoading := true, icdCodes := [] }
      (CallResult.fail (AxiosFailure.withResponse 500 none "Request failed with status code 500"))
      (CallResult.ok { icd_codes := none })).state.selectedFile = none ∧
    (FileUpload.handleAnalyze
      { selectedFile := none, extractedText := "edited text", showTextEditor := true,
        isLoading := true, icdCodes := [] }
      (CallResult.fail (AxiosFailure.withResponse 500 none "Request failed with status code 500"))
      (CallResult.ok { icd_codes := none })).state.icdCodes = [] ∧
    (FileUpload.handleAnalyze
      { selectedFile := none, extractedText := "edited text", showTextEditor := true,
        isLoading := true, icdCodes := [] }
      (CallResult.fail (AxiosFailure.withResponse 500 none "Request failed with status code 500"))
      (CallResult.ok { icd_codes := none })).state.isLoading = false ∧
    (FileUpload.handleAnalyze
      { selectedFile := none, extractedText := "edited text", showTextEditor := true,
        isLoading := true, icdCodes := [] }
      (CallResult.fail (AxiosFailure.withResponse 500 none "Request failed with status code 500"))
      (CallResult.ok { icd_codes := none })).errorMsg =
      some (jsOrStr (ApiError.mk "An error occurred" 500).message "Failed to analyze text") ∧
    (FileUpload.handleAnalyze
      { selectedFile := none, extractedText := "edited text", showTextEditor := true,
        isLoading := true, icdCodes := [] }
      (CallResult.fail (AxiosFailure.withResponse 500 none "Request failed with status code 500"))
      (CallResult.ok { icd_codes := none })).completed = none :=
  c5_analyze_failure_preserves_text
    { selectedFile := none, extractedText := "edited text", showTextEditor := true,
      isLoading := true, icdCodes := [] }
    (CallResult.fail (AxiosFailure.withResponse 500 none "Request failed with status code 500"))
    (CallResult.ok { icd_codes := none })
    (ApiError.mk "An error occurred" 500) (by decide) rfl

/-- C6 counterexample: in the document-upload workflow, after a valid PDF is
selected and the extraction call fails, `selectedFile` is NOT reset to null —
the catch block of `FileUpload.handleFileSelection` surfaces the error but
keeps the selection, contradicting the claim that both workflows clear it. -/
theorem c6_document_upload_keeps_selection :
    (FileUpload.handleFileSelection
      { selectedFile := none, extractedText := "", showTextEditor := false,
        isLoading := false, icdCodes := [] }
      { name := "doc.pdf", type := "application/pdf", size := 1000 }
      (CallResult.fail (AxiosFailure.noResponse "Network Error"))
      (CallResult.ok none) (CallResult.ok { icd_codes := none })).state.selectedFile =
      some { name := "doc.pdf", type := "application/pdf", size := 1000 } ∧
    some { name := "doc.pdf", type := "application/pdf", size := 1000 } ≠
      (none : Option FileMeta) :=
  ⟨rfl, by decide⟩

/-- C6 amended: if extraction fails after a valid file was selected, both
workflows surface the error and reset the loading flag, but only the
blood-report workflow clears the file selection (`setSelectedFile(null)` in
its catch block); the document-upload workflow retains `selectedFile`, and
its editor flag and extracted text are unchanged. -/
theorem c6_amended_extraction_failure (s : FileUpload.State)
    (bs : BloodReportChecker.State) (file : FileMeta) (f : AxiosFailure)
    (structured : CallResult (Option StructuredData)) (icd : CallResult IcdData)
    (htype : file.type = "application/pdf") (hsize : file.size ≤ maxFileSize) :
    (BloodReportChecker.handleFileSelection bs file (CallResult.fail f)).state.selectedFile = none ∧
    (BloodReportChecker.handleFileSelection bs file (CallResult.fail f)).state.isLoading = false ∧
    (BloodReportChecker.handleFileSelection bs file (CallResult.fail f)).errorMsg.isSome = true ∧
    (FileUpload.handleFileSelection s file (CallResult.fail f) structured icd).state.selectedFile = some file ∧
    (FileUpload.handleFileSelection s file (CallResult.fail f) structured icd).state.isLoading = false ∧
    (FileUpload.handleFileSelection s file (CallResult.fail f) structured icd).errorMsg.isSome = true ∧
    (FileUpload.handleFileSelection s file (CallResult.fail f) structured icd).state.showTextEditor = s.showTextEditor ∧
    (FileUpload.handleFileSelection s file (CallResult.fail f) structured icd).state.extractedText = s.extractedText := by
  have hns : ¬(maxFileSize < file.size) := Nat.not_lt.mpr hsize
  have hc : ¬(acceptedTypes.contains file.type = false) := by
    rw [htype]
    simp [acceptedTypes]
  have hpdf : ¬(file.type ≠ "application/pdf") := by
    rw [htype]
    simp
  unfold BloodReportChecker.handleFileSelection FileUpload.handleFileSelection
  rw [if_neg hpdf, if_neg hns, if_neg hc, if_neg hns]
  exact ⟨rfl, rfl, rfl, rfl, rfl, rfl, rfl, rfl⟩

/-- Witness for the amended C6 at a concrete 1 kB PDF whose extraction call
receives no response. -/
theorem c6_amended_extraction_failure_witness :
    (BloodReportChecker.handleFileSelection { selectedFile := none, isLoading := true }
      { name := "r.pdf", type := "application/pdf", size := 1000 }
      (CallResult.fail (AxiosFailure.noResponse "Network Error"))).state.selectedFile = none ∧
    (BloodReportChecker.handleFileSelection { selectedFile := none, isLoading := true }
      { name := "r.pdf", type := "application/pdf", size := 1000 }
      (CallResult.fail (AxiosFailure.noResponse "Network Error"))).state.isLoading = false ∧
    (BloodReportChecker.handleFileSelection { selectedFile := none, isLoading := true }
      { name := "r.pdf", type := "application/pdf", size := 1000 }
      (CallResult.fail (AxiosFailure.noResponse "Network Error"))).errorMsg.isSome = true ∧
    (FileUpload.handleFileSelection
      { selectedFile := none, extractedText := "", showTextEditor := false,
        isLoading := false, icdCodes := [] }
      { name := "r.pdf", type := "application/pdf", size := 1000 }
      (CallResult.fail (AxiosFailure.noResponse "Network Error"))
      (CallResult.ok none) (CallResult.ok { icd_codes := none })).state.selectedFile =
      some { name := "r.pdf", type := "application/pdf", size := 1000 } ∧
    (FileUpload.handleFileSelection
      { selectedFile := none, extractedText := "", showTextEditor := false,
        isLoading := false, icdCodes := [] }
      { name := "r.pdf", type := "application/pdf", size := 1000 }
      (CallResult.fail (AxiosFailure.noResponse "Network Error"))
      (CallResult.ok none) (CallResult.ok { icd_codes := none })).state.isLoading = false ∧
    (FileUpload.handleFileSelection
      { selectedFile := none, extractedText := "", showTextEditor := false,
        isLoading := false, icdCodes := [] }
      { name := "r.pdf", type := "application/pdf", size := 1000 }
      (CallResult.fail (AxiosFailure.noResponse "Network Error"))
      (CallResult.ok none) (CallResult.ok { icd_codes := none })).errorMsg.isSome = true ∧
    (FileUpload.handleFileSelection
      { selectedFile := none, extractedText := "", showTextEditor := false,
        isLoading := false, icdCodes := [] }
      { name := "r.pdf", type := "application/pdf", size := 1000 }
      (CallResult.fail (AxiosFailure.noResponse "Network Error"))
      (CallResult.ok none) (CallResult.ok { icd_codes := none })).state.showTextEditor = false ∧
    (FileUpload.handleFileSelection
      { selectedFile := none, extractedText := "", showTextEditor := false,
        isLoading := false, icdCodes := [] }
      { name := "r.pdf", type := "application/pdf", size := 1000 }
      (CallResult.fail (AxiosFailure.noResponse "Network Error"))
      (CallResult.ok none) (CallResult.ok { icd_codes := none })).state.extractedText = "" :=
  c6_amended_extraction_failure
    { selectedFile := none, extractedText := "", showTextEditor := false,
      isLoading := false, icdCodes := [] }
    { selectedFile := none, isLoading := true }
    { name := "r.pdf", type := "application/pdf", size := 1000 }
    (AxiosFailure.noResponse "Network Error")
    (CallResult.ok none) (CallResult.ok { icd_codes := none }) rfl (by decide)

/-- Rejection of the document-upload selection handler on an invalid type
or oversized file (auxiliary lemma for C7). -/
theorem fileUpload_validation_reject (s : FileUpload.State) (file : FileMeta)
    (upload : CallResult UploadData) (structured : CallResult (Option StructuredData))
    (icd : CallResult IcdData)
    (h : acceptedTypes.contains file.type = false ∨ maxFileSize < file.size) :
    (FileUpload.handleFileSelection s file upload structured icd).apiCalled = false ∧
    (FileUpload.handleFileSelection s file upload structured icd).errorMsg.isSome = true ∧
    (FileUpload.handleFileSelection s file upload structured icd).state = s := by
  unfold FileUpload.handleFileSelection
  by_cases hc : acceptedTypes.contains file.type = false
  · rw [if_pos hc]
    exact ⟨rfl, rfl, rfl⟩
  · rw [if_neg hc]
    rcases h with h | h
    · exact absurd h hc
    · rw [if_pos h]
      exact ⟨rfl, rfl, rfl⟩

/-- Rejection of the blood-report selection handler on a non-PDF type or an
oversized file (auxiliary lemma for C7). -/
theorem bloodChecker_validation_reject (bs : BloodReportChecker.State) (file : FileMeta)
    (resp : CallResult (Option RawBloodData))
    (h : file.type ≠ "application/pdf" ∨ maxFileSize < file.size) :
    (BloodReportChecker.handleFileSelection bs file resp).apiCalled = false ∧
    (BloodReportChecker.handleFileSelection bs file resp).errorMsg.isSome = true ∧
    (BloodReportChecker.handleFileSelection bs file resp).state = bs := by
  unfold BloodReportChecker.handleFileSelection
  by_cases hc : file.type = "application/pdf"
  · rw [if_neg (by simp [hc])]
    rcases h with h | h
    · exact absurd hc h
    · rw [if_pos h]
      exact ⟨rfl, rfl, rfl⟩
  · rw [if_pos hc]
    exact ⟨rfl, rfl, rfl⟩

/-- C7: a file whose MIME type is outside the whitelist (the PDF/JPEG/PNG/GIF
list for document upload, PDF only for blood report) or whose size exceeds
10 MB is rejected with a user-visible validation message, the component
state is untouched and no adapter call is made; and every file of size at
least 10 MB + 1 byte is rejected this way in both workflows regardless of
its MIME type. -/
theorem c7_client_side_validation (s : FileUpload.State) (bs : BloodReportChecker.State)
    (file : FileMeta) (upload : CallResult UploadData)
    (structured : CallResult (Option StructuredData)) (icd : CallResult IcdData)
    (resp : CallResult (Option RawBloodData)) :
    ((acceptedTypes.contains file.type = false ∨ maxFileSize < file.size) →
      (FileUpload.handleFileSelection s file upload structured icd).apiCalled = false ∧
      (FileUpload.handleFileSelection s file upload structured icd).errorMsg.isSome = true ∧
      (FileUpload.handleFileSelection s file upload structured icd).state = s) ∧
    ((file.type ≠ "application/pdf" ∨ maxFileSize < file.size) →
      (BloodReportChecker.handleFileSelection bs file resp).apiCalled = false ∧
      (BloodReportChecker.handleFileSelection bs file resp).errorMsg.isSome = true ∧
      (BloodReportChecker.handleFileSelection bs file resp).state = bs) ∧
    (maxFileSize + 1 ≤ file.size →
      (FileUpload.handleFileSelection s file upload structured icd).apiCalled = false ∧
      (FileUpload.handleFileSelection s file upload structured icd).errorMsg.isSome = true ∧
      (BloodReportChecker.handleFileSelection bs file resp).apiCalled = false ∧
      (BloodReportChecker.handleFileSelection bs file resp).errorMsg.isSome = true) := by
  refine ⟨fileUpload_validation_reject s file upload structured icd,
          bloodChecker_validation_reject bs file resp, ?_⟩
  intro h
  have hlt : maxFileSize < file.size := h
  obtain ⟨d1, d2, -⟩ := fileUpload_validation_reject s file upload structured icd (Or.inr hlt)
  obtain ⟨b1, b2, -⟩ := bloodChecker_validation_reject bs file resp (Or.inr hlt)
  exact ⟨d1, d2, b1, b2⟩

/-- Witness for C7 at a 10 MB + 1 byte PDF: both workflows reject it before
any adapter call. -/
theorem c7_client_side_validation_witness :
    (FileUpload.handleFileSelection
      { selectedFile := none, extractedText := "", showTextEditor := false,
        isLoading := false, icdCodes := [] }
      { name := "big.pdf", type := "application/pdf", size := 10485761 }
      (CallResult.ok { text := "t" }) (CallResult.ok none)
      (CallResult.ok { icd_codes := none })).apiCalled = false ∧
    (FileUpload.handleFileSelection
      { selectedFile := none, extractedText := "", showTextEditor := false,
        isLoading := false, icdCodes := [] }
      { name := "big.pdf", type := "application/pdf", size := 10485761 }
      (CallResult.ok { text := "t" }) (CallResult.ok none)
      (CallResult.ok { icd_codes := none })).errorMsg.isSome = true ∧
    (BloodReportChecker.handleFileSelection { selectedFile := none, isLoading := false }
      { name := "big.pdf", type := "application/pdf", size := 10485761 }
      (CallResult.ok none)).apiCalled = false ∧
    (BloodReportChecker.handleFileSelection { selectedFile := none, isLoading := false }
      { name := "big.pdf", type := "application/pdf", size := 10485761 }
      (CallResult.ok none)).errorMsg.isSome = true :=
  (c7_client_side_validation
    { selectedFile := none, extractedText := "", showTextEditor := false,
      isLoading := false, icdCodes := [] }
    { selectedFile := none, isLoading := false }
    { name := "big.pdf", type := "application/pdf", size := 10485761 }
    (CallResult.ok { text := "t" }) (CallResult.ok none)
    (CallResult.ok { icd_codes := none }) (CallResult.ok none)).2.2 (by decide)

/-- C8: when a chat send fails for any reason, the log gains the user turn
plus exactly one assistant turn, whose text is the fixed fallback apology;
the trace does not depend on the rejection text, so the raw error is never
appended; the handler is a total function, so no exception propagates. -/
theorem c8_chat_failure_fallback (messages : List ChatBot.Message)
    (inputText userId aiId errText : String)
    (hne : ¬jsTrimEmpty inputText = true) :
    (ChatBot.handleSendMessage messages inputText userId aiId
        (ChatBot.ChatCallOutcome.failure errText)).log =
      messages ++ [{ id := userId, text := inputText, isUser := true },
                   { id := aiId, text := ChatBot.fallbackChatText, isUser := false }] ∧
    ((ChatBot.handleSendMessage messages inputText userId aiId
        (ChatBot.ChatCallOutcome.failure errText)).log.filter (fun m => !m.isUser)).length =
      (messages.filter (fun m => !m.isUser)).length + 1 ∧
    (∀ other : String,
      ChatBot.handleSendMessage messages inputText userId aiId
        (ChatBot.ChatCallOutcome.failure other) =
      ChatBot.handleSendMessage messages inputText userId aiId
        (ChatBot.ChatCallOutcome.failure errText)) := by
  have hlog : (ChatBot.handleSendMessage messages inputText userId aiId
      (ChatBot.ChatCallOutcome.failure errText)).log =
      messages ++ [{ id := userId, text := inputText, isUser := true },
                   { id := aiId, text := ChatBot.fallbackChatText, isUser := false }] := by
    unfold ChatBot.handleSendMessage
    rw [if_neg hne]
  refine ⟨hlog, ?_, ?_⟩
  · rw [hlog, List.filter_append, List.length_append]
    rfl
  · intro other
    unfold ChatBot.handleSendMessage
    rw [if_neg hne]

/-- Witness for C8: a failed send over a two-turn log appends the user turn
and one fallback apology turn. -/
theorem c8_chat_failure_fallback_witness :
    (ChatBot.handleSendMessage
      ([⟨"1", "hello", false⟩, ⟨"2", "hi", true⟩] : List ChatBot.Message)
      "why" "3" "4" (ChatBot.ChatCallOutcome.failure "ECONNREFUSED")).log =
      [⟨"1", "hello", false⟩, ⟨"2", "hi", true⟩] ++
        [{ id := "3", text := "why", isUser := true },
         { id := "4", text := ChatBot.fallbackChatText, isUser := false }] ∧
    ((ChatBot.handleSendMessage
      ([⟨"1", "hello", false⟩, ⟨"2", "hi", true⟩] : List ChatBot.Message)
      "why" "3" "4" (ChatBot.ChatCallOutcome.failure "ECONNREFUSED")).log.filter
        (fun m => !m.isUser)).length =
      (([⟨"1", "hello", false⟩, ⟨"2", "hi", true⟩] : List ChatBot.Message).filter
        (fun m => !m.isUser)).length + 1 ∧
    (∀ other : String,
      ChatBot.handleSendMessage
        ([⟨"1", "hello", false⟩, ⟨"2", "hi", true⟩] : List ChatBot.Message)
        "why" "3" "4" (ChatBot.ChatCallOutcome.failure other) =
      ChatBot.handleSendMessage
        ([⟨"1", "hello", false⟩, ⟨"2", "hi", true⟩] : List ChatBot.Message)
        "why" "3" "4" (ChatBot.ChatCallOutcome.failure "ECONNREFUSED")) :=
  c8_chat_failure_fallback [⟨"1", "hello", false⟩, ⟨"2", "hi", true⟩]
    "why" "3" "4" "ECONNREFUSED" (by decide)

/-- C9 counterexample: the message thrown by `handleError` when no response
was received is "Server not responding. Please try again later.", which is
not the string "Server not responding." the claim states. -/
theorem c9_handleError_message_mismatch :
    (handleError (CaughtError.axios (AxiosFailure.noResponse "Network Error"))).message ≠
      "Server not responding." := by
  decide

/-- C9 amended: `handleError` never returns normally (its result is the
object it throws); with no response received it throws status 503 with the
message "Server not responding. Please try again later." (which begins with
"Server not responding."); with a response received it throws the status of
the response, with the backend-provided detail as message when present and
nonempty, else the generic fallback "An error occurred". -/
theorem c9_amended_handleError_classification :
    (∀ m : String, handleError (CaughtError.axios (AxiosFailure.noResponse m)) =
      { message := "Server not responding. Please try again later.", status := 503 }) ∧
    ("Server not responding. Please try again later." =
      "Server not responding." ++ " Please try again later.") ∧
    (∀ (st : Nat) (det : Option String) (m : String),
      handleError (CaughtError.axios (AxiosFailure.withResponse st det m)) =
        { message := jsOrOptStr det "An error occurred", status := st }) ∧
    (∀ (st : Nat) (m : String),
      handleError (CaughtError.axios (AxiosFailure.withResponse st none m)) =
        { message := "An error occurred", status := st }) ∧
    (∀ (st : Nat) (m s : String), s ≠ "" →
      handleError (CaughtError.axios (AxiosFailure.withResponse st (some s) m)) =
        { message := s, status := st }) := by
  refine ⟨fun m => rfl, by decide, fun st det m => rfl, fun st m => rfl, ?_⟩
  intro st m s hs
  simp only [handleError, jsOrOptStr]
  rw [jsOrStr_of_ne _ _ hs]

/-- Witness for the amended C9 at a concrete rejected response carrying a
backend detail. -/
theorem c9_amended_handleError_classification_witness :
    handleError (CaughtError.axios (AxiosFailure.withResponse 422
      (some "Invalid document") "Request failed with status code 422")) =
      { message := "Invalid document", status := 422 } :=
  c9_amended_handleError_classification.2.2.2.2 422
    "Request failed with status code 422" "Invalid document" (by decide)

/-- C10: `documentApi.analyzeText` is total over backend failures — if the
structured-analysis call or the ICD call rejects, it returns (instead of
throwing) the object with `success: false`, empty-string and empty-array
fields, and the error message of the underlying rejection, in contrast to
the throwing taxonomy of the other adapter operations. -/
theorem c10_analyzeText_total_on_failure :
    ∀ (f : AxiosFailure) (sdata : Option StructuredData) (icd : CallResult IcdData),
      documentApi.analyzeText (CallResult.fail f) icd =
        { success := some false, primary_diagnosis := some "",
          prescribed_medication := some [], followup_instructions := some "",
          medical_entities := some [], icd_codes := [],
          error := some f.jsMessage } ∧
      documentApi.analyzeText (CallResult.ok sdata) (CallResult.fail f) =
        { success := some false, primary_diagnosis := some "",
          prescribed_medication := some [], followup_instructions := some "",
          medical_entities := some [], icd_codes := [],
          error := some f.jsMessage } := by
  intro f sdata icd
  exact ⟨rfl, rfl⟩

end MedAnalyzer
